import Mathlib

/-!
Verification of the journal application's core message pipeline.

The development shallowly embeds the Python source `journal_app.py`:
pure helpers become Lean functions on `String` / `List Char`, the
session-scoped record store becomes an explicit `List Entry` threaded
through the operations, and the regex-based recognizers are embedded as
executable character-list scanners that reproduce the Python `re`
semantics (leftmost match, ordered alternation, greedy repetition,
`.` not matching newline) for the concrete patterns used by the code.
The external generative model (the delegate) is a parameter: the router
embedding stops where the source would hand the assembled contents to the
delegate, recording that fact in its result.
-/

/-! ### Python string primitives -/

/-- Python `\s` / `str.strip` whitespace: space, tab, newline, carriage
return, vertical tab, form feed. -/
def isPySpace (c : Char) : Bool :=
  c == ' ' || c == '\t' || c == '\n' || c == '\r' || c == '\x0b' || c == '\x0c'

/-- `str.strip()` on a character list. -/
def pyStripList (cs : List Char) : List Char :=
  ((cs.dropWhile isPySpace).reverse.dropWhile isPySpace).reverse

/-- Python `str.strip()`. -/
def pyStrip (s : String) : String :=
  (pyStripList s.data).asString

/-- Python `str.lower()` (ASCII; all inputs in scope are ASCII apart from
characters that `lower` leaves unchanged). -/
def pyLower (s : String) : String :=
  (s.data.map Char.toLower).asString

/-- Does `pat` occur as a contiguous substring of `s` (Python `pat in s`,
`re.search` of a literal)? -/
def occursIn (pat : List Char) : List Char → Bool
  | [] => pat.isEmpty
  | c :: rest => pat.isPrefixOf (c :: rest) || occursIn pat rest

/-- Substring occurrence on strings. -/
def occursStr (pat s : String) : Bool :=
  occursIn pat.data s.data

/-- `re.search` of an alternation of literal words: some alternative occurs
somewhere in the text. -/
def searchAnyIn (alts : List String) (s : String) : Bool :=
  alts.any (fun a => occursStr a s)

/-! ### Data model

The source stores each entry's timestamp as `datetime.now().isoformat()`
and re-parses it with `datetime.fromisoformat` when rendering; the round
trip is the identity, so the embedding keeps the timestamp structured. -/

structure Timestamp where
  year : Nat
  month : Nat
  day : Nat
  hour : Nat
  minute : Nat
deriving DecidableEq

/-- A stored journal entry (`st.session_state.journal_entries` element). -/
structure Entry where
  id : Nat
  content : String
  category : String
  tags : List String
  timestamp : Timestamp
deriving DecidableEq

/-- Zero-padded two-digit rendering used by `strftime` fields. -/
def pad2 (n : Nat) : String :=
  if n < 10 then "0" ++ toString n else toString n

/-- Zero-padded four-digit year rendering used by `strftime` `%Y`. -/
def pad4 (n : Nat) : String :=
  if n < 10 then "000" ++ toString n
  else if n < 100 then "00" ++ toString n
  else if n < 1000 then "0" ++ toString n
  else toString n

/-- `strftime("%Y-%m-%d %H:%M")` on a stored timestamp. -/
def fmtTimestamp (t : Timestamp) : String :=
  pad4 t.year ++ "-" ++ pad2 t.month ++ "-" ++ pad2 t.day ++ " " ++
    pad2 t.hour ++ ":" ++ pad2 t.minute

/-! ### Record store operations -/

/-- Result of `add_journal_entry` (`{"success": ..., "message": ...}`). -/
structure AddResult where
  success : Bool
  message : String
deriving DecidableEq

/-- `add_journal_entry(content, category, tags=None)`: trims content, trims
and lowercases category, assigns id `len(entries) + 1`, appends.  `now` is
the wall clock at the moment of the call (`datetime.now()`). -/
def add_journal_entry (entries : List Entry) (content category : String)
    (tags : Option (List String)) (now : Timestamp) : AddResult × List Entry :=
  let entry : Entry :=
    { id := entries.length + 1
      content := pyStrip content
      category := pyLower (pyStrip category)
      tags := tags.getD []
      timestamp := now }
  ({ success := true, message := "Added " ++ category ++ " entry." },
    entries ++ [entry])

/-- The category filter of `query_journal_entries`: case-insensitive
equality with the stored category. -/
def categoryMatches (category : String) (e : Entry) : Bool :=
  pyLower e.category == pyLower category

/-- The rendering of one entry inside a query result:
`- [category] content (YYYY-MM-DD HH:MM)`. -/
def renderEntry (e : Entry) : String :=
  "- [" ++ e.category ++ "] " ++ e.content ++ " (" ++ fmtTimestamp e.timestamp ++ ")"

/-- `query_journal_entries(category="all", search_query=None)`. `none` for
`search_query` models the Python `None`; `some ""` models passing an empty
string, which is falsy and hence skips the content filter exactly like
`None`.  Returns the `"result"` field of the Python dict. -/
def query_journal_entries (entries : List Entry) (category : String)
    (search_query : Option String) : String :=
  let es1 := if category = "all" then entries else entries.filter (categoryMatches category)
  let es2 := match search_query with
    | some q => if q = "" then es1
        else es1.filter (fun e => occursStr (pyLower q) (pyLower e.content))
    | none => es1
  if es2.isEmpty then "No entries found."
  else String.intercalate "\n" (es2.map renderEntry)

/-! ### The bulk-entry pattern

`parse_bulk_entries` runs `re.findall` with pattern
`(\w+)\s+—\s+[\d\-\:\s]+(.+)`.  The scanner below reproduces Python's
semantics for this pattern: scan start positions left to right, greedy
repetition with backtracking (only the final character class ever has to
give characters back to `(.+)`, since shortening `\w+` or a `\s+` run
makes the following required character impossible), `.` not matching
newline, and non-overlapping continuation after each match. -/

/-- Python `\w` (ASCII fragment, which covers all inputs in scope). -/
def wordChar (c : Char) : Bool :=
  c.isAlpha || c.isDigit || c == '_'

/-- Python character class `[\d\-\:\s]`. -/
def bulkClassChar (c : Char) : Bool :=
  c.isDigit || c == '-' || c == ':' || isPySpace c

/-- Largest `jo` in `[1, L]` such that the character of `r4` at index `jo`
exists and is not a newline: where the backtracking engine ends the
`[\d\-\:\s]+` run so that `(.+)` can start. -/
def findCapStart (r4 : List Char) : Nat → Option Nat
  | 0 => none
  | jo + 1 =>
    match r4.drop (jo + 1) with
    | [] => findCapStart r4 jo
    | c :: _ => if c == '\n' then findCapStart r4 jo else some (jo + 1)

/-- Try to match the bulk pattern at the head of `s`.  On success returns
(group 1, group 2, rest of the input after the match). -/
def matchBulkAt (s : List Char) : Option (List Char × List Char × List Char) :=
  let w := s.takeWhile wordChar
  if w.isEmpty then none else
  let r1 := s.dropWhile wordChar
  if (r1.takeWhile isPySpace).isEmpty then none else
  match r1.dropWhile isPySpace with
  | '—' :: c :: r4 =>
    if isPySpace c then
      match findCapStart r4 (r4.takeWhile bulkClassChar).length with
      | some jo =>
        some (w, (r4.drop jo).takeWhile (fun ch => ch != '\n'),
          (r4.drop jo).dropWhile (fun ch => ch != '\n'))
      | none => none
    else none
  | _ => none

/-- `re.findall` scan for the bulk pattern: try each start position left to
right, continue after the consumed text on a hit, advance one character on
a miss.  The fuel starts at the input length, which bounds the number of
scan steps. -/
def bulkScan : Nat → List Char → List (List Char × List Char)
  | 0, _ => []
  | fuel + 1, s =>
    match matchBulkAt s with
    | some (cat, cap, rem) => (cat, cap) :: bulkScan fuel rem
    | none =>
      match s with
      | [] => []
      | _ :: rest => bulkScan fuel rest

/-- One tuple produced by the bulk extractor. -/
structure BulkEntry where
  category : String
  content : String
  tags : List String
deriving DecidableEq

/-- `parse_bulk_entries(text)`. -/
def parse_bulk_entries (text : String) : List BulkEntry :=
  (bulkScan text.data.length text.data).map (fun p =>
    { category := pyStrip p.1.asString, content := pyStrip p.2.asString, tags := [] })

/-! ### Retrieval-intent rules (stage 2)

Each manual rule is `re.search(r"(a1|...).*(b1|...)", text)`: some `a`
alternative matches, and some `b` alternative starts at or after its end
with no newline in between (`.` does not match `\n`). -/

def strsToCharLists (l : List String) : List (List Char) :=
  l.map String.data

/-- Some alternative of `alts` matches at some position of the input whose
prefix from the scan start contains no newline. -/
def occursNoNL (alts : List (List Char)) : List Char → Bool
  | [] => alts.any (fun a => a.isEmpty)
  | c :: rest =>
    alts.any (fun a => a.isPrefixOf (c :: rest)) || (c != '\n' && occursNoNL alts rest)

/-- `re.search(r"(as).*(bs)", s)` for literal alternatives. -/
def searchSeqNL (as bs : List (List Char)) : List Char → Bool
  | [] => as.any (fun a => a.isEmpty && occursNoNL bs [])
  | c :: rest =>
    as.any (fun a => a.isPrefixOf (c :: rest) && occursNoNL bs ((c :: rest).drop a.length))
    || searchSeqNL as bs rest

/-- String-level wrapper for the two-part rules. -/
def searchSeq (as bs : List String) (s : String) : Bool :=
  searchSeqNL (strsToCharLists as) (strsToCharLists bs) s.data

/-- The shared `re.search(r"(add|note)", text)` negation of the manual rules. -/
def addNotePresent (text : String) : Bool :=
  searchAnyIn ["add", "note"] text

/-- Rule: `(what|show|list|display).*(shopping|buy|grocer|item)` and not `(add|note)`. -/
def shoppingQueryRule (text : String) : Bool :=
  searchSeq ["what", "show", "list", "display"] ["shopping", "buy", "grocer", "item"] text
    && !(addNotePresent text)

/-- Rule: `(what|show|list|display).*(remind|task|todo|to-do|event)` and not `(add|note)`. -/
def reminderQueryRule (text : String) : Bool :=
  searchSeq ["what", "show", "list", "display"] ["remind", "task", "todo", "to-do", "event"] text
    && !(addNotePresent text)

/-- Rule: `(what|show|list|display).*(note|thought|idea|recommendation)` and not `(add|note)`. -/
def noteQueryRule (text : String) : Bool :=
  searchSeq ["what", "show", "list", "display"] ["note", "thought", "idea", "recommendation"] text
    && !(addNotePresent text)

/-- Outer guard of the fourth rule: `(remind|appointment|meeting|schedule|event)`
present and `(add|note)` absent. -/
def reminderMentionRule (text : String) : Bool :=
  searchAnyIn ["remind", "appointment", "meeting", "schedule", "event"] text
    && !(addNotePresent text)

/-- Inner guard of the fourth rule (no word boundaries in the source pattern). -/
def interrogativePlain (text : String) : Bool :=
  searchAnyIn ["do", "does", "did", "any", "what", "show", "list", "display", "have", "are there"]
    text

/-! ### Implicit-add stage (stage 3)

The source splits the raw message with
`re.split(r"(?:(?<=\.)|(?<=\n)|(?<=and ))(?=\s*add )", msg, flags=IGNORECASE)`:
it cuts at every zero-width position whose preceding text ends with `.`,
a newline, or `and `, and whose following text is optional whitespace and
then `add `.  Case truth is computed on the lowercased message; positions
agree because lowering is character-wise. -/

/-- Does the zero-width split pattern match at position `p` of the
lowercased character list `low`? -/
def cutAt (low : List Char) (p : Nat) : Bool :=
  let behindDot :=
    decide (1 ≤ p) &&
      (match low.drop (p - 1) with
        | c :: _ => c == '.' || c == '\n'
        | [] => false)
  let behindAnd := decide (4 ≤ p) && ['a', 'n', 'd', ' '].isPrefixOf (low.drop (p - 4))
  let ahead := ['a', 'd', 'd', ' '].isPrefixOf ((low.drop p).dropWhile isPySpace)
  (behindDot || behindAnd) && ahead

/-- Split a character list at the given ascending absolute cut positions,
`start` being the beginning of the current segment. -/
def splitSegs (cs : List Char) (start : Nat) : List Nat → List (List Char)
  | [] => [cs.drop start]
  | p :: rest => (cs.drop start).take (p - start) :: splitSegs cs p rest

/-- The `re.split` of stage 3, producing the candidate action segments. -/
def split_add_actions (msg : String) : List String :=
  let low := msg.data.map Char.toLower
  (splitSegs msg.data 0 ((List.range (msg.data.length + 1)).filter (cutAt low))).map
    List.asString

/-- Alternatives of `(?:buy|for|to buy|list to buy)` in source order. -/
def buyAlts : List (List Char) :=
  strsToCharLists ["buy", "for", "to buy", "list to buy"]

/-- At the head of the (lowercased) text, the first alternative in pattern
order that matches and is followed by at least one whitespace character
(required by the `\s+` that follows the group); returns its length. -/
def buyAltAt (low : List Char) : Option Nat :=
  buyAlts.findSome? (fun a =>
    if a.isPrefixOf low &&
        (match low.drop a.length with
          | c :: _ => isPySpace c
          | [] => false)
    then some a.length else none)

/-- Scan `re.findall(r"(?:buy|for|to buy|list to buy)\s+(.*)", action, IGNORECASE)`
and return the capture of the first match, taken from the original-case
text: after the matched alternative, the greedy `\s+` consumes the whole
whitespace run and `(.*)` captures the rest of the line. -/
def findBuyAux (orig low : List Char) : Option (List Char) :=
  match buyAltAt low with
  | some k =>
    some ((orig.drop (k + ((low.drop k).takeWhile isPySpace).length)).takeWhile
      (fun c => c != '\n'))
  | none =>
    match orig, low with
    | _ :: orest, _ :: lrest => findBuyAux orest lrest
    | _, _ => none

/-- The extracted shopping object of an action segment, if any. -/
def findBuyObject (action : String) : Option String :=
  (findBuyAux action.data (action.data.map Char.toLower)).map List.asString

/-- `\b` boundary on the left of a match given the previous character. -/
def boundaryBefore (prev : Option Char) : Bool :=
  match prev with
  | none => true
  | some c => !(wordChar c)

/-- `\b` boundary on the right of a match given the remaining text. -/
def boundaryAfterOK (l : List Char) : Bool :=
  match l with
  | [] => true
  | c :: _ => !(wordChar c)

/-- Scan for a word-bounded occurrence of some alternative (every
alternative in scope starts and ends with a word character, so `\b` means
exactly a non-word neighbour or the text edge). -/
def wbAux (alts : List (List Char)) (prev : Option Char) : List Char → Bool
  | [] => false
  | c :: rest =>
    (boundaryBefore prev &&
      alts.any (fun a => a.isPrefixOf (c :: rest) && boundaryAfterOK ((c :: rest).drop a.length)))
    || wbAux alts (some c) rest

/-- `re.search(r"\b(...)\b", s, IGNORECASE)` for literal alternatives,
applied to already-lowercased text. -/
def wordBoundedSearch (alts : List String) (s : String) : Bool :=
  wbAux (strsToCharLists alts) none s.data

/-- The interrogative guard of the implicit-add reminder branch. -/
def implicitQueryGuard (al : String) : Bool :=
  wordBoundedSearch
    ["do", "does", "did", "any", "what", "show", "list", "display", "have", "are there"] al

/-- One iteration of the stage-3 loop over action segments: threading the
running `(added_count, entries)` pair through one `action`. -/
def implicitAddStep (now : Timestamp) (acc : Nat × List Entry) (action : String) :
    Nat × List Entry :=
  if pyStrip action = "" then acc
  else
    let al := pyLower action
    if searchAnyIn ["to shopping list", "to buy", "list to buy"] al then
      match findBuyObject action with
      | some obj =>
        (acc.1 + 1, (add_journal_entry acc.2 (pyStrip obj) "shoppinglist" none now).2)
      | none => acc
    else if searchAnyIn ["remind", "appointment", "meeting", "schedule", "event"] al then
      if implicitQueryGuard al then acc
      else (acc.1 + 1, (add_journal_entry acc.2 action "reminder" none now).2)
    else acc

/-! ### Router -/

/-- `should_include_context(user_message)`. -/
def should_include_context (user_message : String) : Bool :=
  ["what", "list", "show", "remind", "buy", "task", "to-do", "remember", "summary",
    "note"].any (fun k => occursStr k (pyLower user_message))

/-- Python `entries[-10:]`. -/
def lastN (n : Nat) (l : List Entry) : List Entry :=
  l.drop (l.length - n)

/-- The context block prepended before a delegate call. -/
def contextBlock (entries : List Entry) : String :=
  "Here are recent journal entries:\n" ++
    String.intercalate "\n"
      ((lastN 10 entries).map (fun e => "- [" ++ e.category ++ "] " ++ e.content))

/-- Result of one router pass.  `reply` is a return before the delegate is
ever contacted; `toDelegate` records that control reached stage 4 with the
given `contents` list handed to the generative model (whose behaviour is
external to this development). -/
inductive RouterOutcome where
  | reply (msg : String) (entries : List Entry)
  | toDelegate (contents : List String) (entries : List Entry)
deriving DecidableEq

/-- Stages 1–3 of `process_message`, plus the context assembly of stage 4;
`entries0` is the session store when the message arrives and `now` the wall
clock of the pass. -/
def process_message (user_message : String) (now : Timestamp)
    (entries0 : List Entry) : RouterOutcome :=
  let text := pyLower (pyStrip user_message)
  let bulk := parse_bulk_entries user_message
  if bulk.isEmpty then
    if shoppingQueryRule text then
      .reply (query_journal_entries entries0 "shoppinglist" none) entries0
    else if reminderQueryRule text then
      .reply (query_journal_entries entries0 "reminder" none) entries0
    else if noteQueryRule text then
      .reply (query_journal_entries entries0 "note" none) entries0
    else if reminderMentionRule text && interrogativePlain text then
      .reply (query_journal_entries entries0 "reminder" none) entries0
    else
      let acc := (split_add_actions user_message).foldl (implicitAddStep now) (0, entries0)
      if acc.1 ≠ 0 then
        .reply ("✅ Added " ++ toString acc.1 ++ " journal entr" ++
          (if acc.1 == 1 then "y" else "ies") ++ " successfully.") acc.2
      else
        let context_text :=
          if should_include_context user_message && !entries0.isEmpty then
            contextBlock entries0
          else ""
        .toDelegate (if context_text ≠ "" then [context_text, user_message]
          else [user_message]) entries0
  else
    let entries := bulk.foldl
      (fun es b => (add_journal_entry es b.content b.category (some b.tags) now).2) entries0
    .reply ("✅ Added " ++ toString bulk.length ++ " journal entries successfully.") entries

/-! ### Delegate client retry policy (`safe_generate`)

The generative call is external; its behaviour is a parameter `behave`
giving the outcome of each attempt (indexed from 0).  `SafeResult` records
how the Python control flow ends together with the total time slept. -/

/-- Outcome of one `client.models.generate_content` call: a value, or an
exception carrying `str(e)`. -/
inductive GenOutcome (α : Type) where
  | ok (v : α)
  | err (msg : String)

/-- The rate-limit test of the `except` branch:
`"429" in str(e) or "rate" in str(e).lower()`. -/
def isRateLimitMsg (m : String) : Bool :=
  occursStr "429" m || occursStr "rate" (pyLower m)

/-- How `safe_generate` terminates, with the total slept backoff. -/
inductive SafeResult (α : Type) where
  | ok (v : α) (slept : Nat)
  | raised (msg : String) (slept : Nat)
  | exhausted (slept : Nat)

/-- The `for attempt in range(retries)` loop: `left` attempts remain,
`attempt` is the current index, `slept` the accumulated backoff. -/
def safeGenAux {α : Type} (behave : Nat → GenOutcome α) :
    Nat → Nat → Nat → SafeResult α
  | 0, _, slept => .exhausted slept
  | left + 1, attempt, slept =>
    match behave attempt with
    | .ok v => .ok v slept
    | .err m =>
      if isRateLimitMsg m then
        safeGenAux behave left (attempt + 1) (slept + (attempt + 1) * 5)
      else .raised m slept

/-- `safe_generate(client, model, contents, config, retries=3)` with the
client's behaviour abstracted into `behave`. -/
def safe_generate {α : Type} (behave : Nat → GenOutcome α) (retries : Nat) :
    SafeResult α :=
  safeGenAux behave retries 0 0

/-! ### Tool dispatcher -/

/-- The argument map of a tool call.  `none` models an absent key, `some`
a present one (so `some ""` is a present-but-empty string, which is the
only falsy string). -/
structure ToolArgs where
  content : Option String
  category : Option String
  tags : Option (List String)
  search_query : Option String
deriving DecidableEq

/-- The pre-dispatch normalization of `process_message` stage 5:
`if "category" in args and not args["category"]: args["category"] = "note"`.
The key must be present and falsy; an absent key is left absent. -/
def fill_category_default (args : ToolArgs) : ToolArgs :=
  match args.category with
  | some c => if c = "" then { args with category := some "note" } else args
  | none => args

/-- Result of `execute_function`. -/
inductive ExecResult where
  | addRes (r : AddResult)
  | queryRes (r : String)
  | unknownFunction
deriving DecidableEq

/-- `execute_function(function_call)` dispatching on the tool name; `none`
models the Python `TypeError` raised by `fn(**args)` when a required
argument is absent or an unexpected keyword is present. -/
def execute_function (entries : List Entry) (now : Timestamp) (name : String)
    (args : ToolArgs) : Option (ExecResult × List Entry) :=
  if name = "add_journal_entry" then
    match args.content, args.category, args.search_query with
    | some c, some cat, none =>
      let r := add_journal_entry entries c cat args.tags now
      some (.addRes r.1, r.2)
    | _, _, _ => none
  else if name = "query_journal_entries" then
    match args.content, args.tags with
    | none, none =>
      some (.queryRes (query_journal_entries entries (args.category.getD "all")
        args.search_query), entries)
    | _, _ => none
  else some (.unknownFunction, entries)

/-- A tool call arriving from the delegate: the category default is applied
before dispatch. -/
def dispatch_from_delegate (entries : List Entry) (now : Timestamp) (name : String)
    (args : ToolArgs) : Option (ExecResult × List Entry) :=
  execute_function entries now name (fill_category_default args)

/-! ### Session-level operation sequences

For the id claims: a session is a sequence of `create` calls and presses of
the sidebar clear button (`st.session_state.journal_entries.clear()`,
which also empties the chat transcript). -/

/-- One session operation. -/
inductive Op where
  | create (content category : String)
  | clearAll
deriving DecidableEq

/-- The abstract session state touched by the operations: the record store
and the chat transcript (cleared together by the button). -/
structure Session where
  entries : List Entry
  transcript : List String
deriving DecidableEq

/-- Run the operations, also recording the id assigned by each create, in
order. -/
def runOps (now : Timestamp) : List Op → Session → Session × List Nat
  | [], s => (s, [])
  | Op.create c cat :: rest, s =>
    let es2 := (add_journal_entry s.entries c cat none now).2
    let r := runOps now rest { s with entries := es2 }
    (r.1, (s.entries.length + 1) :: r.2)
  | Op.clearAll :: rest, _ => runOps now rest { entries := [], transcript := [] }

/-- The ids assigned during a whole session started from the empty store. -/
def assignedIds (now : Timestamp) (ops : List Op) : List Nat :=
  (runOps now ops { entries := [], transcript := [] }).2

/-- Apply a sequence of bare `create` calls to a store. -/
def applyCreates (now : Timestamp) : List (String × String) → List Entry → List Entry
  | [], es => es
  | (c, cat) :: rest, es => applyCreates now rest (add_journal_entry es c cat none now).2

/-- The consecutive integers `s, s+1, ..., s+n-1`. -/
def consecFrom (s : Nat) : Nat → List Nat
  | 0 => []
  | n + 1 => s :: consecFrom (s + 1) n

/-! ### Concrete instances used by the claim theorems -/

/-- A fixed wall-clock instant for concrete sessions. -/
def ts2024 : Timestamp := ⟨2024, 1, 1, 10, 0⟩

/-- A demo stored entry of category `note`. -/
def demoMilk : Entry := ⟨1, "milk", "note", [], ⟨2024, 1, 2, 9, 5⟩⟩

/-- A demo stored entry of category `shoppinglist`. -/
def demoShop : Entry := ⟨2, "eggs", "shoppinglist", [], ⟨2024, 1, 2, 9, 5⟩⟩

/-- A delegate behaviour that rate-limits the first two attempts and
succeeds on the third. -/
def demoBehave : Nat → GenOutcome Nat := fun n =>
  if n < 2 then .err "429 RESOURCE_EXHAUSTED" else .ok 7

/-- The bulk-paste input of the spec's testable property 3. -/
def c2Input : String :=
  "task — 2024-01-01 10:00 buy milk\nreminder — 2024-01-02 09:00 call mom"

/-- The implicit-add input of the spec's testable property 5. -/
def c4Input : String := "Remind me to call the dentist tomorrow."

/-! ### Helper lemmas -/

theorem consecFrom_mem_le : ∀ (n s m : Nat), m ∈ consecFrom s n → s ≤ m := by
  intro n
  induction n with
  | zero => intro s m h; simp [consecFrom] at h
  | succ k ih =>
    intro s m h
    simp only [consecFrom, List.mem_cons] at h
    rcases h with h | h
    · omega
    · have := ih (s + 1) m h; omega

theorem consecFrom_pairwise : ∀ (n s : Nat), (consecFrom s n).Pairwise (· < ·) := by
  intro n
  induction n with
  | zero => intro s; simp [consecFrom]
  | succ k ih =>
    intro s
    refine List.Pairwise.cons ?_ (ih (s + 1))
    intro m hm
    have := consecFrom_mem_le k (s + 1) m hm
    omega

theorem applyCreates_map_id (now : Timestamp) :
    ∀ (calls : List (String × String)) (es : List Entry),
      (applyCreates now calls es).map Entry.id =
        es.map Entry.id ++ consecFrom (es.length + 1) calls.length := by
  intro calls
  induction calls with
  | nil => intro es; simp [applyCreates, consecFrom]
  | cons p rest ih =>
    intro es
    simp only [applyCreates, add_journal_entry, List.length_cons, consecFrom]
    rw [ih]
    simp [List.length_append]

theorem runOps_ids_no_clear (now : Timestamp) :
    ∀ (ops : List Op) (s : Session), Op.clearAll ∉ ops →
      (runOps now ops s).2 = consecFrom (s.entries.length + 1) ops.length := by
  intro ops
  induction ops with
  | nil => intro s _; simp [runOps, consecFrom]
  | cons op rest ih =>
    intro s h
    cases op with
    | create c cat =>
      simp only [runOps, add_journal_entry, List.length_cons, consecFrom]
      rw [ih _ (fun hm => h (List.mem_cons_of_mem _ hm))]
      simp [List.length_append]
    | clearAll => exact absurd (List.mem_cons_self _ _) h

theorem safeGenAux_congr {α : Type} (b1 b2 : Nat → GenOutcome α) :
    ∀ (left attempt slept : Nat),
      (∀ i, attempt ≤ i → i < attempt + left → b1 i = b2 i) →
      safeGenAux b1 left attempt slept = safeGenAux b2 left attempt slept := by
  intro left
  induction left with
  | zero => intro attempt slept _; rfl
  | succ k ih =>
    intro attempt slept h
    rw [safeGenAux, safeGenAux, h attempt (Nat.le_refl _) (by omega)]
    cases b2 attempt with
    | ok v => rfl
    | err m =>
      simp only []
      by_cases hm : isRateLimitMsg m = true
      · simp only [hm, if_true]
        exact ih (attempt + 1) _ (fun i hi1 hi2 => h i (by omega) (by omega))
      · simp at hm
        simp only [hm, Bool.false_eq_true, if_false]

/-! ### Claim theorems -/

/-- Claim C1.  The delegate retry policy of `safe_generate`: the generate
call is attempted at most 3 times (the result depends only on the first
three attempt outcomes); after an attempt whose error message contains
`429` or `rate` case-insensitively, the client sleeps `(attempt_index+1)*5`
time units and retries; any other failure is re-raised immediately with no
further sleeping or attempts; three rate-limited failures raise the
distinct exhausted-retries failure; and rate-limit failures on the first
two attempts followed by success yield the value with total backoff
exactly `5 + 10`. -/
theorem C1_delegate_retry_policy :
    (∀ (α : Type) (behave : Nat → GenOutcome α) (v : α) (m0 m1 : String),
      behave 0 = .err m0 → isRateLimitMsg m0 = true →
      behave 1 = .err m1 → isRateLimitMsg m1 = true →
      behave 2 = .ok v →
      safe_generate behave 3 = .ok v (5 + 10)) ∧
    (∀ (α : Type) (behave : Nat → GenOutcome α) (m : String),
      behave 0 = .err m → isRateLimitMsg m = false →
      safe_generate behave 3 = .raised m 0) ∧
    (∀ (α : Type) (behave : Nat → GenOutcome α) (m0 m1 : String),
      behave 0 = .err m0 → isRateLimitMsg m0 = true →
      behave 1 = .err m1 → isRateLimitMsg m1 = false →
      safe_generate behave 3 = .raised m1 5) ∧
    (∀ (α : Type) (behave : Nat → GenOutcome α) (m0 m1 m2 : String),
      behave 0 = .err m0 → isRateLimitMsg m0 = true →
      behave 1 = .err m1 → isRateLimitMsg m1 = true →
      behave 2 = .err m2 → isRateLimitMsg m2 = true →
      safe_generate behave 3 = .exhausted (5 + 10 + 15)) ∧
    (∀ (α : Type) (b1 b2 : Nat → GenOutcome α),
      (∀ i, i < 3 → b1 i = b2 i) → safe_generate b1 3 = safe_generate b2 3) := by
  refine ⟨?_, ?_, ?_, ?_, ?_⟩
  · intro α behave v m0 m1 h0 hr0 h1 hr1 h2
    show safeGenAux behave (2 + 1) 0 0 = _
    rw [safeGenAux, h0]
    simp only [hr0, if_true]
    rw [show (2 : Nat) = 1 + 1 from rfl, safeGenAux, show (0 : Nat) + 1 = 1 from rfl, h1]
    simp only [hr1, if_true]
    rw [show (1 : Nat) = 0 + 1 from rfl, safeGenAux, show (0 : Nat) + 1 + 1 = 2 from rfl, h2]
  · intro α behave m h0 hr0
    show safeGenAux behave (2 + 1) 0 0 = _
    rw [safeGenAux, h0]
    simp only [hr0, Bool.false_eq_true, if_false]
  · intro α behave m0 m1 h0 hr0 h1 hr1
    show safeGenAux behave (2 + 1) 0 0 = _
    rw [safeGenAux, h0]
    simp only [hr0, if_true]
    rw [show (2 : Nat) = 1 + 1 from rfl, safeGenAux, show (0 : Nat) + 1 = 1 from rfl, h1]
    simp only [hr1, Bool.false_eq_true, if_false]
  · intro α behave m0 m1 m2 h0 hr0 h1 hr1 h2 hr2
    show safeGenAux behave (2 + 1) 0 0 = _
    rw [safeGenAux, h0]
    simp only [hr0, if_true]
    rw [show (2 : Nat) = 1 + 1 from rfl, safeGenAux, show (0 : Nat) + 1 = 1 from rfl, h1]
    simp only [hr1, if_true]
    rw [show (1 : Nat) = 0 + 1 from rfl, safeGenAux, show (0 : Nat) + 1 + 1 = 2 from rfl, h2]
    simp only [hr2, if_true]
    rw [safeGenAux]
  · intro α b1 b2 h
    exact safeGenAux_congr b1 b2 3 0 0 (fun i hi1 hi2 => h i (by omega))

/-- Claim C1, witness: a behaviour that rate-limits the first two attempts
and succeeds on the third yields the value with backoff `5 + 10`. -/
theorem C1_delegate_retry_policy_witness :
    safe_generate demoBehave 3 = SafeResult.ok 7 (5 + 10) :=
  C1_delegate_retry_policy.1 Nat demoBehave 7 "429 RESOURCE_EXHAUSTED"
    "429 RESOURCE_EXHAUSTED" rfl (by decide) rfl (by decide) rfl

/-- Claim C2.  On the two-line bulk input, extraction yields exactly the
two tuples (`task`/`buy milk`, then `reminder`/`call mom`) in input order;
the router applies both as creates and replies with the count-2 message,
never reaching the delegate (the outcome is a `reply`, not `toDelegate`). -/
theorem C2_bulk_two_entries (now : Timestamp) (store : List Entry) :
    parse_bulk_entries c2Input =
      [⟨"task", "buy milk", []⟩, ⟨"reminder", "call mom", []⟩] ∧
    process_message c2Input now store =
      .reply "✅ Added 2 journal entries successfully."
        (store ++ [⟨store.length + 1, "buy milk", "task", [], now⟩,
          ⟨store.length + 2, "call mom", "reminder", [], now⟩]) := by
  have hb : parse_bulk_entries c2Input =
      [⟨"task", "buy milk", []⟩, ⟨"reminder", "call mom", []⟩] := rfl
  refine ⟨hb, ?_⟩
  have hadd1 : (add_journal_entry store "buy milk" "task" (some []) now).2 =
      store ++ [⟨store.length + 1, "buy milk", "task", [], now⟩] := by rfl
  have hadd2 : ∀ es : List Entry, (add_journal_entry es "call mom" "reminder" (some []) now).2 =
      es ++ [⟨es.length + 1, "call mom", "reminder", [], now⟩] := fun es => by rfl
  simp [process_message, hb, hadd1, hadd2, List.length_append, Nat.add_assoc]
  rfl

/-- Claim C3.  Any message on which the bulk extractor finds nothing, whose
normalized text matches the shopping retrieval pattern
(`(what|show|list|display).*(shopping|buy|grocer|item)`), and which does
not contain `add` or `note`, is answered by the shoppinglist retrieval
rule: the router replies with `query(category="shoppinglist")` directly,
leaves the store unchanged, and never reaches the delegate; on an empty
store the reply is the no-entries sentinel. -/
theorem C3_shoppinglist_rule (msg : String) (now : Timestamp) (store : List Entry)
    (hbulk : parse_bulk_entries msg = [])
    (hshop : searchSeq ["what", "show", "list", "display"]
      ["shopping", "buy", "grocer", "item"] (pyLower (pyStrip msg)) = true)
    (hnoadd : addNotePresent (pyLower (pyStrip msg)) = false) :
    process_message msg now store =
      .reply (query_journal_entries store "shoppinglist" none) store ∧
    (store = [] →
      process_message msg now store = .reply "No entries found." store) := by
  have hrule : shoppingQueryRule (pyLower (pyStrip msg)) = true := by
    simp [shoppingQueryRule, hshop, hnoadd]
  have hmain : process_message msg now store =
      .reply (query_journal_entries store "shoppinglist" none) store := by
    simp [process_message, hbulk, hrule]
  refine ⟨hmain, ?_⟩
  intro hempty
  subst hempty
  rw [hmain]
  rfl

/-- Claim C3, witness: the shopping-list question on an empty store
returns the sentinel without reaching the delegate. -/
theorem C3_shoppinglist_rule_witness :
    process_message "what is on my shopping list?" ts2024 [] =
      .reply "No entries found." [] :=
  (C3_shoppinglist_rule "what is on my shopping list?" ts2024 [] (by decide)
    (by decide) (by decide)).2 rfl

/-- Claim C4.  The dentist-reminder input creates exactly one entry, of
category `reminder`, through the implicit-add matcher (its content is the
whole message), and the router replies with the count-1 message without
reaching the delegate. -/
theorem C4_implicit_reminder_add (now : Timestamp) (store : List Entry) :
    process_message c4Input now store =
      .reply "✅ Added 1 journal entry successfully."
        (store ++ [⟨store.length + 1, c4Input, "reminder", [], now⟩]) := by
  have hb : parse_bulk_entries c4Input = [] := rfl
  have htext : pyLower (pyStrip c4Input) = "remind me to call the dentist tomorrow." := rfl
  have hsplit : split_add_actions c4Input = [c4Input] := rfl
  have hstep : implicitAddStep now (0, store) c4Input =
      (1, store ++ [⟨store.length + 1, c4Input, "reminder", [], now⟩]) := by rfl
  have r1 : shoppingQueryRule "remind me to call the dentist tomorrow." = false := by decide
  have r2 : reminderQueryRule "remind me to call the dentist tomorrow." = false := by decide
  have r3 : noteQueryRule "remind me to call the dentist tomorrow." = false := by decide
  have r4 : interrogativePlain "remind me to call the dentist tomorrow." = false := by decide
  simp [process_message, hb, htext, hsplit, hstep, r1, r2, r3, r4]
  rfl

/-- Claim C5.  The meetings question creates no entry (the store is
returned unchanged: the interrogative guard keeps the implicit-add path
from firing) and is answered by the reminder retrieval rule with
`query(category="reminder")`, never reaching the delegate. -/
theorem C5_interrogative_guard (now : Timestamp) (store : List Entry) :
    process_message "Do I have any meetings today?" now store =
      .reply (query_journal_entries store "reminder" none) store := by
  rfl

/-- Claim C6.  For any sequence of create calls on a fresh store, the
assigned ids are exactly `1, 2, ..., n` — strictly increasing integers
starting at 1 — regardless of the content and category arguments. -/
theorem C6_ids_strictly_increasing (now : Timestamp) (calls : List (String × String)) :
    (applyCreates now calls []).map Entry.id = consecFrom 1 calls.length ∧
    ((applyCreates now calls []).map Entry.id).Pairwise (· < ·) := by
  have h := applyCreates_map_id now calls []
  simp only [List.map_nil, List.length_nil, List.nil_append, Nat.zero_add] at h
  exact ⟨h, h ▸ consecFrom_pairwise calls.length 1⟩

/-- Claim C7, counterexample: in the session `create; clear; create`, both
creates are assigned id 1, so an id is reassigned after the bulk clear and
the assigned ids are not unique — refuting the claim as stated. -/
theorem C7_counterexample :
    assignedIds ts2024 [Op.create "a" "note", Op.clearAll, Op.create "b" "note"] = [1, 1] ∧
    ¬ (assignedIds ts2024 [Op.create "a" "note", Op.clearAll, Op.create "b" "note"]).Nodup := by
  constructor
  · rfl
  · intro h
    rw [show assignedIds ts2024 [Op.create "a" "note", Op.clearAll, Op.create "b" "note"] =
      [1, 1] from rfl] at h
    simp at h

/-- Claim C7 as amended: in any session sequence that does not use the
bulk clear, the assigned ids are strictly increasing, hence unique — an id
is never assigned twice; after a clear, ids restart at 1 and may repeat
earlier ones (see the counterexample). -/
theorem C7_ids_unique_without_clear (now : Timestamp) (ops : List Op)
    (h : Op.clearAll ∉ ops) :
    (assignedIds now ops).Pairwise (· < ·) ∧ (assignedIds now ops).Nodup := by
  have hids : assignedIds now ops = consecFrom 1 ops.length := by
    unfold assignedIds
    rw [runOps_ids_no_clear now ops _ h]
    rfl
  constructor
  · rw [hids]; exact consecFrom_pairwise ops.length 1
  · rw [hids]
    exact (consecFrom_pairwise ops.length 1).imp (fun hlt => Nat.ne_of_lt hlt)

/-- Claim C7, witness for the amended statement: a clear-free two-create
session has strictly increasing, duplicate-free ids. -/
theorem C7_ids_unique_without_clear_witness :
    (assignedIds ts2024 [Op.create "a" "note", Op.create "b" "task"]).Pairwise (· < ·) ∧
    (assignedIds ts2024 [Op.create "a" "note", Op.create "b" "task"]).Nodup :=
  C7_ids_unique_without_clear ts2024 [Op.create "a" "note", Op.create "b" "task"] (by decide)

/-- Claim C8.  `query("all")` renders all stored entries in insertion
order, one per line; the category filter is case-insensitive, so
`ShoppingList` matches a stored `shoppinglist`; an empty filtered set
yields the no-entries sentinel instead of an empty rendering; a non-empty
filtered set is rendered in store order; and each line has the shape
`- [category] content (YYYY-MM-DD HH:MM)`. -/
theorem C8_query_semantics :
    (∀ store : List Entry, store ≠ [] →
      query_journal_entries store "all" none = String.intercalate "\n" (store.map renderEntry)) ∧
    (∀ e : Entry, e.category = "shoppinglist" → categoryMatches "ShoppingList" e = true) ∧
    (∀ (store : List Entry) (cat : String), cat ≠ "all" →
      store.filter (categoryMatches cat) = [] →
      query_journal_entries store cat none = "No entries found.") ∧
    (∀ (store : List Entry) (cat : String), cat ≠ "all" →
      store.filter (categoryMatches cat) ≠ [] →
      query_journal_entries store cat none =
        String.intercalate "\n" ((store.filter (categoryMatches cat)).map renderEntry)) ∧
    renderEntry demoMilk = "- [note] milk (2024-01-02 09:05)" := by
  refine ⟨?_, ?_, ?_, ?_, ?_⟩
  · intro store h
    match store, h with
    | e :: es, _ => simp [query_journal_entries, List.isEmpty]
  · intro e h
    simp only [categoryMatches, h]
    decide
  · intro store cat hne hfil
    simp [query_journal_entries, if_neg hne, hfil]
  · intro store cat hne hfil
    cases hf : store.filter (categoryMatches cat) with
    | nil => exact absurd hf hfil
    | cons a as => simp [query_journal_entries, if_neg hne, hf, List.isEmpty]
  · decide

/-- Claim C8, witness: on a one-entry store `query("all")` returns the
rendered line, a non-matching category returns the sentinel, and
`ShoppingList` matches a stored `shoppinglist` entry. -/
theorem C8_query_semantics_witness :
    query_journal_entries [demoMilk] "all" none = "- [note] milk (2024-01-02 09:05)" ∧
    query_journal_entries [demoMilk] "reminder" none = "No entries found." ∧
    categoryMatches "ShoppingList" demoShop = true := by
  refine ⟨?_, ?_, ?_⟩
  · have h := C8_query_semantics.1 [demoMilk] (by simp)
    rw [h]
    decide
  · exact C8_query_semantics.2.2.1 [demoMilk] "reminder" (by decide) (by decide)
  · exact C8_query_semantics.2.1 demoShop rfl

/-- Claim C9, counterexample: a delegate tool call with NO `category` key
is left without one — the dispatcher fill only applies to a present-but-
empty category — so a `query_journal_entries` call with absent category
dispatches with the `all` default, returning every entry, not the
`note`-filtered view the claim would imply. -/
theorem C9_counterexample :
    fill_category_default ⟨none, none, none, none⟩ = ⟨none, none, none, none⟩ ∧
    (fill_category_default ⟨none, none, none, none⟩).category ≠ some "note" ∧
    dispatch_from_delegate [demoMilk, demoShop] ts2024 "query_journal_entries"
        ⟨none, none, none, none⟩ =
      some (.queryRes
        ("- [note] milk (2024-01-02 09:05)\n- [shoppinglist] eggs (2024-01-02 09:05)"),
        [demoMilk, demoShop]) := by
  refine ⟨rfl, by decide, by decide⟩

/-- Claim C9 as amended: the dispatcher default-fills the `category`
argument to `note` exactly when the key is present with an empty (falsy)
value; a present non-empty category and an absent category are both left
unchanged. -/
theorem C9_category_fill_amended (args : ToolArgs) :
    (args.category = some "" →
      fill_category_default args = { args with category := some "note" }) ∧
    (∀ c : String, args.category = some c → c ≠ "" → fill_category_default args = args) ∧
    (args.category = none → fill_category_default args = args) := by
  refine ⟨?_, ?_, ?_⟩
  · intro h; simp [fill_category_default, h]
  · intro c h hne; simp [fill_category_default, h, hne]
  · intro h; simp [fill_category_default, h]

/-- Claim C9, witness for the amended statement: a present empty category
is filled to `note`. -/
theorem C9_category_fill_amended_witness :
    fill_category_default ⟨some "x", some "", none, none⟩ =
      ⟨some "x", some "note", none, none⟩ :=
  (C9_category_fill_amended ⟨some "x", some "", none, none⟩).1 rfl

/-- Claim C10.  For every category and store, querying with an empty
search string gives exactly the same result as querying with no search
string: the empty string is falsy so the content filter is skipped. -/
theorem C10_empty_search_query (store : List Entry) (cat : String) :
    query_journal_entries store cat (some "") = query_journal_entries store cat none := by
  simp [query_journal_entries]
